import Mathlib

/-!
Shallow embedding of `src/gistapi/gistapi.py` (the gist-search Flask service).

The request handler `search` (lines 57-114), the metadata helper
`gists_for_user` (lines 30-54) and the per-gist loop body (lines 87-99) are
translated into executable Lean functions over a model of JSON values.
Python exceptions are modelled by `Except String`; a `.error` value means the
corresponding Python code raises an exception that escapes the function
(an unhandled fault at the HTTP layer).  Outbound HTTP calls made by the code
are collected into an explicit trace, so "no outbound call is made" is the
trace being empty.
-/

/-- A JSON value, as decoded by `request.get_json()` / `response.json()`.
Object entries keep insertion order, as Python dicts do. -/
inductive JValue where
  | null : JValue
  | bool (b : Bool) : JValue
  | num (n : Int) : JValue
  | str (s : String) : JValue
  | arr (elems : List JValue) : JValue
  | obj (entries : List (String × JValue)) : JValue

/-- Python truthiness of a decoded JSON value (`if post_data:` on line 70):
`None`, `False`, `0`, `""`, `[]` and `{}` are falsy, everything else truthy. -/
def JValue.truthy : JValue → Bool
  | .null => false
  | .bool b => b
  | .num n => n != 0
  | .str s => s != ""
  | .arr l => !l.isEmpty
  | .obj l => !l.isEmpty

/-- Key lookup in an object's entry list (first occurrence). -/
def lookupEntry (k : String) : List (String × JValue) → Option JValue
  | [] => none
  | (k', v) :: rest => if k' == k then some v else lookupEntry k rest

/-- `v.lookup k`: the value under key `k` when `v` is an object. -/
def JValue.lookup (v : JValue) (k : String) : Option JValue :=
  match v with
  | .obj es => lookupEntry k es
  | _ => none

/-- Python `str()` of a decoded JSON value, as used by `.format()` on line 44
and the f-string on line 99.  The service's interface contract fixes the
interpolated values (`username`, `gist['id']`) to JSON scalars; the rendering
of containers is abbreviated, no theorem below depends on it. -/
def pyStr : JValue → String
  | .null => "None"
  | .bool true => "True"
  | .bool false => "False"
  | .num n => toString n
  | .str s => s
  | .arr _ => "<list>"
  | .obj _ => "<dict>"

/-- Whether `hay` starts with `needle`. -/
def leadsWith : List Char → List Char → Bool
  | [], _ => true
  | _ :: _, [] => false
  | a :: as, b :: bs => a == b && leadsWith as bs

/-- Whether `needle` occurs as a contiguous run inside `hay`
(Python substring membership). -/
def hasSub (needle : List Char) : List Char → Bool
  | [] => leadsWith needle []
  | c :: t => leadsWith needle (c :: t) || hasSub needle t

/-- Python equality of the string `s` against a decoded JSON value: true
exactly for the equal string (a string never equals a number, boolean, `None`
or a container). -/
def eqStrVal (s : String) : JValue → Bool
  | .str s' => s == s'
  | _ => false

/-- Python `needle in v` (lines 72 and 75).  Defined for containers: key test
for a dict, element test for a list, substring test for a string.  For
numbers, booleans and `None` the operator raises `TypeError`. -/
def pyContains (needle : String) : JValue → Except String Bool
  | .obj es => .ok (es.any (fun e => e.1 == needle))
  | .arr l => .ok (l.any (fun e => eqStrVal needle e))
  | .str s => .ok (hasSub needle.toList s.toList)
  | .num _ => .error "TypeError: argument of type int is not iterable"
  | .bool _ => .error "TypeError: argument of type bool is not iterable"
  | .null => .error "TypeError: argument of type NoneType is not iterable"

/-- Python subscript `v[k]` with a string key (lines 78-79, 91-93, 99):
key lookup for a dict (`KeyError` when absent); for strings and lists a
string index raises `TypeError`; other values are not subscriptable. -/
def pyGetItem (v : JValue) (k : String) : Except String JValue :=
  match v with
  | .obj es =>
      match lookupEntry k es with
      | some x => .ok x
      | none => .error ("KeyError: " ++ k)
  | .str _ => .error "TypeError: string indices must be integers"
  | .arr _ => .error "TypeError: list indices must be integers"
  | _ => .error "TypeError: object is not subscriptable"

/-- Python `d.values()` (line 92): the values of a dict in insertion order;
any non-dict value has no `values` attribute. -/
def pyValues : JValue → Except String (List JValue)
  | .obj es => .ok (es.map (fun e => e.2))
  | _ => .error "AttributeError: object has no attribute values"

/-- Python single-target unpacking `value, = xs` (line 92): succeeds exactly
when the iterable has one element, otherwise raises `ValueError`. -/
def unpackSingle : List JValue → Except String JValue
  | [x] => .ok x
  | [] => .error "ValueError: not enough values to unpack"
  | _ => .error "ValueError: too many values to unpack"

/-- Whether a decoded JSON value is hashable in Python: dicts and lists are
not, scalars are. -/
def isHashable : JValue → Bool
  | .arr _ => false
  | .obj _ => false
  | _ => true

/-- Python iteration over a decoded JSON value: a list yields its elements, a
dict its keys, a string its characters; scalars are not iterable. -/
def pyIterList : JValue → Except String (List JValue)
  | .arr l => .ok l
  | .obj es => .ok (es.map (fun e => JValue.str e.1))
  | .str s => .ok (s.toList.map (fun c => JValue.str (String.mk [c])))
  | _ => .error "TypeError: object is not iterable"

/-- Python `==` restricted to JSON scalars, used only by the `set` model for
hashable elements.  Cross-type numeric equalities such as `True == 1` are not
modelled; no theorem below depends on this path. -/
def scalarEq : JValue → JValue → Bool
  | .null, .null => true
  | .bool a, .bool b => a == b
  | .num a, .num b => a == b
  | .str a, .str b => a == b
  | _, _ => false

/-- First-occurrence deduplication (helper for the `set` model). -/
def dedupKeepFirst (seen : List JValue) : List JValue → List JValue
  | [] => []
  | x :: xs =>
      if seen.any (scalarEq x) then dedupKeepFirst seen xs
      else x :: dedupKeepFirst (x :: seen) xs

/-- Python `set(v)` (line 87).  Building a set hashes every element of the
iterable; an unhashable element (a dict or a list) raises `TypeError`.  When
all elements are hashable, CPython's iteration order over the resulting set
is hash-dependent; it is modelled here as first-occurrence order — no claim
below depends on that order, since every path that reaches a hashable-element
set in this program fails right afterwards or is empty. -/
def pySet (v : JValue) : Except String (List JValue) :=
  match pyIterList v with
  | .error e => .error e
  | .ok l =>
      if l.all isHashable then .ok (dedupKeepFirst [] l)
      else .error "TypeError: unhashable type: dict"

/-!
### Model of the `re` module (restricted)

Line 86 compiles the user pattern with `re.MULTILINE | re.IGNORECASE` and
lines 96-97 test `len(regex_pattern.findall(text)) > 0`.  The fragment of
Python's regex language modelled here is: literal characters, `.`, character
classes `[...]` / `[^...]` (with CPython's quirk that a `]` directly after
`[` or `[^` is a member, and an unterminated class is a compile error —
`re.error` — exactly as for the pattern `"["`), the escaped-literal form of
backslash escapes, and the `^` / `$` anchors.  Repetition, alternation,
groups, ranges inside classes and special escape classes are outside the
modelled fragment; no claim exercises them.  `re.IGNORECASE` is modelled as
ASCII case folding.
-/

/-- One atom of a compiled pattern. -/
inductive RAtom where
  | lit (c : Char) : RAtom
  | anyChar : RAtom
  | cls (neg : Bool) (members : List Char) : RAtom
  | lineStart : RAtom
  | lineEnd : RAtom

/-- State of the single-pass pattern parser. -/
inductive PMode where
  | top : PMode
  | escTop : PMode
  | classOpen : PMode
  | classFirst (neg : Bool) : PMode
  | inClass (neg : Bool) (members : List Char) : PMode
  | escClass (neg : Bool) (members : List Char) : PMode

/-- Single pass over the pattern characters; an open character class that
never sees its `]` is the `re.error` raised for a pattern such as `"["`. -/
def parseLoop : PMode → List RAtom → List Char → Except String (List RAtom)
  | .top, acc, [] => .ok acc.reverse
  | .escTop, _, [] => .error "re.error: bad escape at end of pattern"
  | .classOpen, _, [] => .error "re.error: unterminated character set"
  | .classFirst _, _, [] => .error "re.error: unterminated character set"
  | .inClass _ _, _, [] => .error "re.error: unterminated character set"
  | .escClass _ _, _, [] => .error "re.error: unterminated character set"
  | .top, acc, c :: rest =>
      if c == '^' then parseLoop .top (.lineStart :: acc) rest
      else if c == '$' then parseLoop .top (.lineEnd :: acc) rest
      else if c == '.' then parseLoop .top (.anyChar :: acc) rest
      else if c == '[' then parseLoop .classOpen acc rest
      else if c == '\\' then parseLoop .escTop acc rest
      else parseLoop .top (.lit c :: acc) rest
  | .escTop, acc, c :: rest => parseLoop .top (.lit c :: acc) rest
  | .classOpen, acc, c :: rest =>
      if c == '^' then parseLoop (.classFirst true) acc rest
      else if c == '\\' then parseLoop (.escClass false []) acc rest
      else parseLoop (.inClass false [c]) acc rest
  | .classFirst neg, acc, c :: rest =>
      if c == '\\' then parseLoop (.escClass neg []) acc rest
      else parseLoop (.inClass neg [c]) acc rest
  | .inClass neg ms, acc, c :: rest =>
      if c == ']' then parseLoop .top (.cls neg ms.reverse :: acc) rest
      else if c == '\\' then parseLoop (.escClass neg ms) acc rest
      else parseLoop (.inClass neg (c :: ms)) acc rest
  | .escClass neg ms, acc, c :: rest => parseLoop (.inClass neg (c :: ms)) acc rest

/-- Parse a pattern string into atoms (the fallible part of `re.compile`). -/
def parseAtoms (pattern : String) : Except String (List RAtom) :=
  parseLoop .top [] pattern.toList

/-- ASCII case folding on character codes (model of `re.IGNORECASE`). -/
def lowerCode (n : Nat) : Nat :=
  if 65 ≤ n ∧ n ≤ 90 then n + 32 else n

/-- Case-folded key of a character. -/
def charKey (c : Char) : Nat :=
  lowerCode c.toNat

/-- Literal-character match, case-folded when `i` (IGNORECASE) is set. -/
def litMatches (i : Bool) (d c : Char) : Bool :=
  if i then charKey d == charKey c else d == c

/-- Character-class membership, case-folded when `i` is set. -/
def clsMatches (i neg : Bool) (ms : List Char) (c : Char) : Bool :=
  let mem := ms.any (fun d => litMatches i d c)
  if neg then !mem else mem

/-- Whether the current position is a `^` position.  `prev` holds the already
consumed text in reverse, so its head is the preceding character.  With
MULTILINE the anchor also matches after a newline. -/
def atLineStart (m : Bool) : List Char → Bool
  | [] => true
  | c :: _ => m && c == '\n'

/-- Whether the current position is a `$` position: end of text, or with
MULTILINE directly before a newline.  (The non-MULTILINE allowance before a
single trailing newline is not modelled; the program always sets MULTILINE.) -/
def atLineEnd (m : Bool) : List Char → Bool
  | [] => true
  | c :: _ => m && c == '\n'

/-- Match the atom list at the current position.  `m` is MULTILINE, `i` is
IGNORECASE, `prev` the consumed text in reverse, `rest` the text ahead. -/
def matchHere (m i : Bool) : List RAtom → List Char → List Char → Bool
  | [], _, _ => true
  | .lineStart :: as, prev, rest => atLineStart m prev && matchHere m i as prev rest
  | .lineEnd :: as, prev, rest => atLineEnd m rest && matchHere m i as prev rest
  | .lit d :: as, prev, c :: rest => litMatches i d c && matchHere m i as (c :: prev) rest
  | .anyChar :: as, prev, c :: rest => (c != '\n') && matchHere m i as (c :: prev) rest
  | .cls neg ms :: as, prev, c :: rest =>
      clsMatches i neg ms c && matchHere m i as (c :: prev) rest
  | .lit _ :: _, _, [] => false
  | .anyChar :: _, _, [] => false
  | .cls _ _ :: _, _, [] => false

/-- Try to match at the current position or at any later one. -/
def searchFrom (m i : Bool) (as : List RAtom) : List Char → List Char → Bool
  | prev, [] => matchHere m i as prev []
  | prev, c :: rest => matchHere m i as prev (c :: rest) || searchFrom m i as (c :: prev) rest

/-- Whether the atom list matches anywhere in the text. -/
def reSearchList (m i : Bool) (as : List RAtom) (text : List Char) : Bool :=
  searchFrom m i as [] text

/-- A compiled pattern object: the parsed atoms plus the flags it was
compiled with. -/
structure CompiledRegex where
  atoms : List RAtom
  multiline : Bool
  ignorecase : Bool

/-- Line 86: `re.compile(pattern, re.MULTILINE | re.IGNORECASE)`.  The flags
are fixed here, not taken from the request.  Compiling a non-string value
raises `TypeError`; a malformed pattern raises `re.error`. -/
def reCompileSearch : JValue → Except String CompiledRegex
  | .str p =>
      match parseAtoms p with
      | .ok as => .ok { atoms := as, multiline := true, ignorecase := true }
      | .error e => .error e
  | _ => .error "TypeError: first argument must be string or compiled pattern"

/-- Lines 96-97: `len(regex_pattern.findall(response.text)) > 0`.  `findall`
returns a nonempty list exactly when the pattern matches somewhere in the
text, which is what this computes. -/
def reHasMatch (r : CompiledRegex) (text : String) : Bool :=
  reSearchList r.multiline r.ignorecase r.atoms text.toList


/-!
### The service: `gists_for_user` and `search`

The HTTP environment is a parameter: one response for the metadata listing
call and a response per raw-content URL.  Both upstream bodies arrive already
decoded (the upstream contract fixes them to JSON; for raw content, plain
text).  The functions return the produced value together with the trace of
outbound calls made before returning normally.
-/

/-- One outbound HTTP call made by the service. -/
inductive OutCall where
  | listing (url : String) : OutCall
  | raw (url : String) : OutCall

/-- The responses the upstream API would give during one request. -/
structure Upstream where
  listing : Nat × JValue
  raw : String → Nat × String

/-- Line 44: the per-user listing URL built by `format`. -/
def listingUrl (username : JValue) : String :=
  "https://api.github.com/users/" ++ pyStr username ++ "/gists"

/-- Line 99: the public gist URL built by the f-string. -/
def gistPublicUrl (username gistId : JValue) : String :=
  "https://gist.github.com/" ++ pyStr username ++ "/" ++ pyStr gistId

/-- Lines 30-54, `gists_for_user(username)`: one listing call; on status 200
return `(True, "Successful", json)`, otherwise `(False, json["message"],
json)` — reading `"message"` from an error body that lacks it raises
`KeyError`. -/
def gists_for_user (up : Upstream) (username : JValue) :
    Except String (Bool × JValue × JValue) × List OutCall :=
  let calls := [OutCall.listing (listingUrl username)]
  let code := up.listing.1
  let json_data := up.listing.2
  if code == 200 then (.ok (true, .str "Successful", json_data), calls)
  else
    match json_data.lookup "message" with
    | some m => (.ok (false, m, json_data), calls)
    | none => (.error "KeyError: message", calls)

/-- Lines 91-99, the body of the per-gist loop: unpack the single file of
`gist['files']`, fetch its `raw_url`, and on status 200 test the pattern;
the produced value is `some url` when the gist's public URL is appended to
`match_list`, `none` when the gist is skipped. -/
def processGist (up : Upstream) (username : JValue) (r : CompiledRegex)
    (gist : JValue) : Except String (Option String) × List OutCall :=
  match pyGetItem gist "files" with
  | .error e => (.error e, [])
  | .ok files =>
    match pyValues files with
    | .error e => (.error e, [])
    | .ok vs =>
      match unpackSingle vs with
      | .error e => (.error e, [])
      | .ok value =>
        match pyGetItem value "raw_url" with
        | .error e => (.error e, [])
        | .ok rawv =>
          match rawv with
          | .str url =>
              let code := (up.raw url).1
              let text := (up.raw url).2
              if code == 200 then
                if reHasMatch r text then
                  match pyGetItem gist "id" with
                  | .error e => (.error e, [OutCall.raw url])
                  | .ok gid => (.ok (some (gistPublicUrl username gid)), [OutCall.raw url])
                else (.ok none, [OutCall.raw url])
              else (.ok none, [OutCall.raw url])
          | _ => (.error "TypeError: request url must be a string", [])

/-- Lines 87-99, the loop over the deduplicated gists, accumulating
`match_list` in iteration order. -/
def processGists (up : Upstream) (username : JValue) (r : CompiledRegex) :
    List JValue → Except String (List String) × List OutCall
  | [] => (.ok [], [])
  | g :: gs =>
      match processGist up username r g with
      | (.error e, calls) => (.error e, calls)
      | (.ok opt, calls) =>
          match processGists up username r gs with
          | (.error e, calls') => (.error e, calls ++ calls')
          | (.ok urls, calls') =>
              match opt with
              | some u => (.ok (u :: urls), calls ++ calls')
              | none => (.ok urls, calls ++ calls')

/-- Lines 57-114, the `search` request handler.  `post_data` is the decoded
request body (`none` when the body is absent or unparseable, making
`request.get_json()` return `None`).  The produced `JValue` is the object
passed to `jsonify`, with entries in insertion order; a `.error` means a
Python exception escapes the handler. -/
def search (post_data : Option JValue) (up : Upstream) :
    Except String JValue × List OutCall :=
  match post_data with
  | none =>
      (.ok (.obj [("status", .str "failed"), ("message", .str "Invalid parameters")]), [])
  | some pd =>
    if pd.truthy then
      match pyContains "username" pd with
      | .error e => (.error e, [])
      | .ok hasU =>
        if !hasU then
          (.ok (.obj [("status", .str "failed"), ("message", .str "username is required")]), [])
        else
          match pyContains "pattern" pd with
          | .error e => (.error e, [])
          | .ok hasP =>
            if !hasP then
              (.ok (.obj [("status", .str "failed"), ("message", .str "pattern is required")]), [])
            else
              match pyGetItem pd "username" with
              | .error e => (.error e, [])
              | .ok username =>
                match pyGetItem pd "pattern" with
                | .error e => (.error e, [])
                | .ok pattern =>
                  match gists_for_user up username with
                  | (.error e, calls1) => (.error e, calls1)
                  | (.ok (is_successful, msg, data), calls1) =>
                    if is_successful then
                      match reCompileSearch pattern with
                      | .error e => (.error e, calls1)
                      | .ok regex_pattern =>
                        match pySet data with
                        | .error e => (.error e, calls1)
                        | .ok gists =>
                          match processGists up username regex_pattern gists with
                          | (.error e, calls2) => (.error e, calls1 ++ calls2)
                          | (.ok match_list, calls2) =>
                              (.ok (.obj [("status", .str "success"),
                                          ("username", username),
                                          ("pattern", pattern),
                                          ("matches", .arr (match_list.map .str))]),
                               calls1 ++ calls2)
                    else
                      (.ok (.obj [("status", .str "failed"),
                                  ("message", msg),
                                  ("username", username),
                                  ("pattern", pattern),
                                  ("matches", .arr [])]), calls1)
    else
      (.ok (.obj [("status", .str "failed"), ("message", .str "Invalid parameters")]), [])

/-!
### Helper lemmas about the matcher
-/

/-- `charKey` is 10 exactly for a newline. -/
theorem charKey_eq_ten_iff (c : Char) : charKey c = 10 ↔ c = '\n' := by
  constructor
  · intro h
    have hn : c.toNat = 10 := by
      unfold charKey lowerCode at h
      split at h <;> omega
    have := congrArg Char.ofNat hn
    simpa [Char.ofNat_toNat] using this
  · intro h
    subst h
    rfl

/-- Characters with equal case-folded keys agree on being a newline. -/
theorem beq_newline_congr (c c' : Char) (h : charKey c = charKey c') :
    (c == '\n') = (c' == '\n') := by
  by_cases hc : c = '\n' <;> by_cases hc' : c' = '\n' <;> simp [hc, hc']
  · exact hc' ((charKey_eq_ten_iff c').mp (by rw [← h, hc]; rfl))
  · exact hc ((charKey_eq_ten_iff c).mp (by rw [h, hc']; rfl))

/-- With IGNORECASE set, a literal atom only sees the case-folded key of the
text character. -/
theorem litMatches_congr (d c c' : Char) (h : charKey c = charKey c') :
    litMatches true d c = litMatches true d c' := by
  simp [litMatches, h]

/-- With IGNORECASE set, a class atom only sees the case-folded key of the
text character. -/
theorem clsMatches_congr (neg : Bool) (ms : List Char) (c c' : Char)
    (h : charKey c = charKey c') : clsMatches true neg ms c = clsMatches true neg ms c' := by
  simp [clsMatches, litMatches, h]

/-- `atLineStart` only sees the case-folded keys of the consumed text. -/
theorem atLineStart_congr (m : Bool) (p p' : List Char)
    (h : p.map charKey = p'.map charKey) : atLineStart m p = atLineStart m p' := by
  cases p with
  | nil => cases p' with
    | nil => rfl
    | cons _ _ => simp at h
  | cons c t => cases p' with
    | nil => simp at h
    | cons c' t' =>
        simp only [List.map_cons, List.cons.injEq] at h
        simp [atLineStart, beq_newline_congr c c' h.1]

/-- `atLineEnd` only sees the case-folded keys of the text ahead. -/
theorem atLineEnd_congr (m : Bool) (p p' : List Char)
    (h : p.map charKey = p'.map charKey) : atLineEnd m p = atLineEnd m p' := by
  cases p with
  | nil => cases p' with
    | nil => rfl
    | cons _ _ => simp at h
  | cons c t => cases p' with
    | nil => simp at h
    | cons c' t' =>
        simp only [List.map_cons, List.cons.injEq] at h
        simp [atLineEnd, beq_newline_congr c c' h.1]

/-- With IGNORECASE set, matching at a position only sees the case-folded
keys of the text on both sides of the position. -/
theorem matchHere_congr (m : Bool) :
    ∀ (as : List RAtom) (prev prev' rest rest' : List Char),
      prev.map charKey = prev'.map charKey →
      rest.map charKey = rest'.map charKey →
      matchHere m true as prev rest = matchHere m true as prev' rest' := by
  intro as
  induction as with
  | nil => intro _ _ _ _ _ _; rfl
  | cons a as ih =>
      intro prev prev' rest rest' hp hr
      cases a with
      | lineStart =>
          simp only [matchHere]
          rw [atLineStart_congr m prev prev' hp, ih prev prev' rest rest' hp hr]
      | lineEnd =>
          simp only [matchHere]
          rw [atLineEnd_congr m rest rest' hr, ih prev prev' rest rest' hp hr]
      | lit d =>
          cases rest with
          | nil =>
              cases rest' with
              | nil => rfl
              | cons _ _ => simp at hr
          | cons c t =>
              cases rest' with
              | nil => simp at hr
              | cons c' t' =>
                  simp only [List.map_cons, List.cons.injEq] at hr
                  simp only [matchHere]
                  rw [litMatches_congr d c c' hr.1,
                      ih (c :: prev) (c' :: prev') t t' (by simp [hp, hr.1]) hr.2]
      | anyChar =>
          cases rest with
          | nil =>
              cases rest' with
              | nil => rfl
              | cons _ _ => simp at hr
          | cons c t =>
              cases rest' with
              | nil => simp at hr
              | cons c' t' =>
                  simp only [List.map_cons, List.cons.injEq] at hr
                  simp only [matchHere]
                  have hb : (c != '\n') = (c' != '\n') := by
                    simp [bne, beq_newline_congr c c' hr.1]
                  rw [hb, ih (c :: prev) (c' :: prev') t t' (by simp [hp, hr.1]) hr.2]
      | cls neg ms =>
          cases rest with
          | nil =>
              cases rest' with
              | nil => rfl
              | cons _ _ => simp at hr
          | cons c t =>
              cases rest' with
              | nil => simp at hr
              | cons c' t' =>
                  simp only [List.map_cons, List.cons.injEq] at hr
                  simp only [matchHere]
                  rw [clsMatches_congr neg ms c c' hr.1,
                      ih (c :: prev) (c' :: prev') t t' (by simp [hp, hr.1]) hr.2]

/-- With IGNORECASE set, searching only sees the case-folded keys of the
text. -/
theorem searchFrom_congr (m : Bool) (as : List RAtom) :
    ∀ (rest rest' prev prev' : List Char),
      prev.map charKey = prev'.map charKey →
      rest.map charKey = rest'.map charKey →
      searchFrom m true as prev rest = searchFrom m true as prev' rest' := by
  intro rest
  induction rest with
  | nil =>
      intro rest' prev prev' hp hr
      cases rest' with
      | nil => simp only [searchFrom]; exact matchHere_congr m as prev prev' [] [] hp rfl
      | cons _ _ => simp at hr
  | cons c t ih =>
      intro rest' prev prev' hp hr
      cases rest' with
      | nil => simp at hr
      | cons c' t' =>
          simp only [List.map_cons, List.cons.injEq] at hr
          simp only [searchFrom]
          rw [matchHere_congr m as prev prev' (c :: t) (c' :: t') hp (by simp [hr.1, hr.2]),
              ih t' (c :: prev) (c' :: prev') (by simp [hp, hr.1]) hr.2]

/-- A match at the current position is in particular a successful search. -/
theorem searchFrom_of_matchHere (m i : Bool) (as : List RAtom)
    (prev rest : List Char) (h : matchHere m i as prev rest = true) :
    searchFrom m i as prev rest = true := by
  cases rest <;> simp [searchFrom, h]

/-- Searching may skip over an arbitrary consumed prefix. -/
theorem searchFrom_shift (m i : Bool) (as : List RAtom) :
    ∀ (p prev rest : List Char),
      searchFrom m i as (p.reverse ++ prev) rest = true →
      searchFrom m i as prev (p ++ rest) = true := by
  intro p
  induction p with
  | nil => intro prev rest h; simpa using h
  | cons c p ih =>
      intro prev rest h
      have h' : searchFrom m i as (p.reverse ++ (c :: prev)) rest = true := by
        simpa [List.append_assoc] using h
      have h2 := ih (c :: prev) rest h'
      simp [searchFrom, h2]

/-!
### Shared helper lemmas about `search`
-/

/-- Truthy body whose membership test reports no `username`: the handler
returns the username-required failure before any outbound call. -/
theorem search_missing_username (pd : JValue) (up : Upstream)
    (hT : pd.truthy = true) (h : pyContains "username" pd = .ok false) :
    search (some pd) up =
      (.ok (.obj [("status", .str "failed"), ("message", .str "username is required")]), []) := by
  simp [search, hT, h]

/-- Truthy body containing `username` but not `pattern`: the handler returns
the pattern-required failure before any outbound call. -/
theorem search_missing_pattern (pd : JValue) (up : Upstream)
    (hT : pd.truthy = true) (h1 : pyContains "username" pd = .ok true)
    (h2 : pyContains "pattern" pd = .ok false) :
    search (some pd) up =
      (.ok (.obj [("status", .str "failed"), ("message", .str "pattern is required")]), []) := by
  simp [search, hT, h1, h2]

/-!
### Concrete fixtures
-/

/-- An upstream with a successful, empty gist listing and failing raw
fetches. -/
def upNoGists : Upstream :=
  { listing := (200, .arr []), raw := fun _ => (404, "") }

/-- A well-formed single-file gist. -/
def gistA : JValue :=
  .obj [("id", .str "A"), ("files", .obj [("a.txt", .obj [("raw_url", .str "rawA")])])]

/-- A well-formed single-file gist whose content does not match. -/
def gistB : JValue :=
  .obj [("id", .str "B"), ("files", .obj [("b.txt", .obj [("raw_url", .str "rawB")])])]

/-- A well-formed single-file gist whose content fetch fails. -/
def gistC : JValue :=
  .obj [("id", .str "C"), ("files", .obj [("c.txt", .obj [("raw_url", .str "rawC")])])]

/-- The spec's example upstream: gist A matches, gist B does not, gist C's
content fetch fails. -/
def upABC : Upstream :=
  { listing := (200, .arr [gistA, gistB, gistC]),
    raw := fun u =>
      if u == "rawA" then (200, "alpha needle beta")
      else if u == "rawB" then (200, "nothing here") else (500, "") }

/-- The compiled pattern `needle` with the flags of line 86. -/
def rxNeedle : CompiledRegex :=
  { atoms := [.lit 'n', .lit 'e', .lit 'e', .lit 'd', .lit 'l', .lit 'e'],
    multiline := true, ignorecase := true }

/-- A gist whose `files` mapping is empty. -/
def gistNoFiles : JValue := .obj [("id", .str "g0"), ("files", .obj [])]

/-- A gist whose `files` mapping has two entries. -/
def gistTwoFiles : JValue :=
  .obj [("id", .str "g2"),
        ("files", .obj [("a", .obj [("raw_url", .str "uA")]),
                        ("b", .obj [("raw_url", .str "uB")])])]

/-- The empty compiled pattern with the flags of line 86. -/
def rxTrivial : CompiledRegex :=
  { atoms := [], multiline := true, ignorecase := true }

/-!
### Claims
-/

/-- C1: the claim says a syntactically invalid pattern yields a
status-failed `SearchResult` and never an unhandled fault.  The code compiles
the pattern on line 86 with no exception handling: for the request
`username "kr", pattern "["` (with a successful empty listing) the
`re.error` escapes the handler as an unhandled fault instead of producing a
failed result. -/
theorem c1_invalid_pattern_error_escapes_handler :
    search (some (.obj [("username", .str "kr"), ("pattern", .str "[")])) upNoGists
      = (.error "re.error: unterminated character set",
         [.listing "https://api.github.com/users/kr/gists"]) := rfl

/-- C2: the claim says snippets with zero or several files are handled
explicitly and without a fault.  The loop body (line 92) raises `ValueError`
on such gists, and the full handler in fact already raises `TypeError` at
`set(data)` (line 87) before reaching them. -/
theorem c2_zero_or_many_files_fault :
    processGist upNoGists (.str "u") rxTrivial gistNoFiles
      = (.error "ValueError: not enough values to unpack", [])
  ∧ processGist upNoGists (.str "u") rxTrivial gistTwoFiles
      = (.error "ValueError: too many values to unpack", [])
  ∧ (search (some (.obj [("username", .str "u"), ("pattern", .str "x")]))
       { listing := (200, .arr [gistNoFiles]), raw := fun _ => (404, "") }).1
      = .error "TypeError: unhashable type: dict" :=
  ⟨rfl, rfl, rfl⟩

/-- C3: the claim says the metadata list is deduplicated by snippet id before
iterating.  The code instead calls `set(data)` on a list of dicts (line 87),
which raises `TypeError` — for a listing containing the same gist twice the
search crashes rather than iterating each id once. -/
theorem c3_duplicate_metadata_fault :
    (search (some (.obj [("username", .str "u"), ("pattern", .str "x")]))
       { listing := (200, .arr [gistA, gistA]), raw := fun _ => (200, "x") }).1
      = .error "TypeError: unhashable type: dict" := rfl

/-- C4: the claim (and the spec's A/B/C example) says a successful search
lists exactly the matching, successfully fetched snippets in metadata order.
The per-gist logic would classify A as matching and B, C as not, but the
handler crashes with `TypeError` at `set(data)` before fetching anything, so
the example request produces an unhandled fault instead of a result. -/
theorem c4_abc_example_fault :
    reCompileSearch (.str "needle") = .ok rxNeedle
  ∧ processGist upABC (.str "u4") rxNeedle gistA
      = (.ok (some "https://gist.github.com/u4/A"), [.raw "rawA"])
  ∧ processGist upABC (.str "u4") rxNeedle gistB = (.ok none, [.raw "rawB"])
  ∧ processGist upABC (.str "u4") rxNeedle gistC = (.ok none, [.raw "rawC"])
  ∧ (search (some (.obj [("username", .str "u4"), ("pattern", .str "needle")])) upABC).1
      = .error "TypeError: unhashable type: dict" :=
  ⟨rfl, rfl, rfl, rfl, rfl⟩

/-- C5 counterexample: the claim quantifies over every parseable, truthy
body, but for the truthy body `true` the membership test on line 72 raises
`TypeError`, so the handler faults instead of returning the
username-required result. -/
theorem c5_counterexample_nonmapping_body :
    (JValue.bool true).truthy = true
  ∧ (search (some (.bool true)) upNoGists).1
      = .error "TypeError: argument of type bool is not iterable" :=
  ⟨rfl, rfl⟩

/-- C5 (amended to bodies supporting the membership test — objects, arrays
and strings): if `username` is not contained in the body the handler returns
the username-required failure, and if `username` is contained but `pattern`
is not it returns the pattern-required failure, in both cases with an empty
outbound-call trace. -/
theorem c5_required_field_checks (pd : JValue) (up : Upstream)
    (hT : pd.truthy = true) :
    (pyContains "username" pd = .ok false →
        search (some pd) up =
          (.ok (.obj [("status", .str "failed"),
                      ("message", .str "username is required")]), []))
  ∧ (pyContains "username" pd = .ok true → pyContains "pattern" pd = .ok false →
        search (some pd) up =
          (.ok (.obj [("status", .str "failed"),
                      ("message", .str "pattern is required")]), [])) :=
  ⟨fun h => search_missing_username pd up hT h,
   fun h1 h2 => search_missing_pattern pd up hT h1 h2⟩

/-- C5 witness: both branches at concrete inputs. -/
theorem c5_required_field_checks_witness :
    search (some (.obj [("pattern", .str "p")])) upNoGists
      = (.ok (.obj [("status", .str "failed"),
                    ("message", .str "username is required")]), [])
  ∧ search (some (.obj [("username", .str "u")])) upNoGists
      = (.ok (.obj [("status", .str "failed"),
                    ("message", .str "pattern is required")]), []) :=
  ⟨(c5_required_field_checks (.obj [("pattern", .str "p")]) upNoGists rfl).1 rfl,
   (c5_required_field_checks (.obj [("username", .str "u")]) upNoGists rfl).2 rfl rfl⟩

/-- C6: the claim says a snippet whose content fetch fails is skipped while
the search continues.  The loop body (lines 94-99) does skip it — no match
recorded, no error — but the handler never gets there for a non-empty
listing: it crashes with `TypeError` at `set(data)` before any content
fetch, aborting the whole search. -/
theorem c6_fetch_failure_skip_unreachable :
    processGist { listing := (200, .arr [gistC]), raw := fun _ => (404, "gone") }
        (.str "u6") rxTrivial gistC
      = (.ok none, [.raw "rawC"])
  ∧ (search (some (.obj [("username", .str "u6"), ("pattern", .str "x")]))
       { listing := (200, .arr [gistC]), raw := fun _ => (404, "gone") }).1
      = .error "TypeError: unhashable type: dict" :=
  ⟨rfl, rfl⟩

/-- C7: when the metadata listing call returns a non-success status whose
body carries a `message` field (as the upstream contract guarantees), the
handler returns a status-failed result with that message verbatim and an
empty matches sequence, after the single listing call. -/
theorem c7_listing_failure_verbatim_message
    (pd uname pat upBody m : JValue) (code : Nat) (up : Upstream)
    (hT : pd.truthy = true)
    (hU : pyContains "username" pd = .ok true)
    (hP : pyContains "pattern" pd = .ok true)
    (hgu : pyGetItem pd "username" = .ok uname)
    (hgp : pyGetItem pd "pattern" = .ok pat)
    (hl : up.listing = (code, upBody))
    (hc : code ≠ 200)
    (hm : upBody.lookup "message" = some m) :
    search (some pd) up =
      (.ok (.obj [("status", .str "failed"), ("message", m), ("username", uname),
                  ("pattern", pat), ("matches", .arr [])]),
       [.listing (listingUrl uname)]) := by
  have hcode : (code == 200) = false := by simp [hc]
  simp [search, hT, hU, hP, hgu, hgp, gists_for_user, hl, hcode, hm]

/-- C7 witness: a 403 listing with a rate-limit message. -/
theorem c7_listing_failure_witness :
    search (some (.obj [("username", .str "u7"), ("pattern", .str "p7")]))
        { listing := (403, .obj [("message", .str "API rate limit exceeded")]),
          raw := fun _ => (0, "") }
      = (.ok (.obj [("status", .str "failed"),
                    ("message", .str "API rate limit exceeded"),
                    ("username", .str "u7"), ("pattern", .str "p7"),
                    ("matches", .arr [])]),
         [.listing "https://api.github.com/users/u7/gists"]) :=
  c7_listing_failure_verbatim_message
    (.obj [("username", .str "u7"), ("pattern", .str "p7")])
    (.str "u7") (.str "p7") (.obj [("message", .str "API rate limit exceeded")])
    (.str "API rate limit exceeded") 403
    { listing := (403, .obj [("message", .str "API rate limit exceeded")]),
      raw := fun _ => (0, "") }
    rfl rfl rfl rfl rfl rfl (by decide) rfl

/-- C8: every pattern the handler compiles carries both MULTILINE and
IGNORECASE; `^foo$` compiles to the expected atoms and matches any body with
the line `foo` between arbitrary other content; and with IGNORECASE set the
match outcome depends on the text only through its case-folded characters,
i.e. matching ignores letter case. -/
theorem c8_flags_and_matching :
    (∀ (p : String) (r : CompiledRegex), reCompileSearch (.str p) = .ok r →
        r.multiline = true ∧ r.ignorecase = true)
  ∧ parseAtoms "^foo$" = .ok [.lineStart, .lit 'f', .lit 'o', .lit 'o', .lineEnd]
  ∧ (∀ pre post : List Char,
        reSearchList true true [.lineStart, .lit 'f', .lit 'o', .lit 'o', .lineEnd]
          (pre ++ '\n' :: 'f' :: 'o' :: 'o' :: '\n' :: post) = true)
  ∧ (∀ (as : List RAtom) (t u : List Char), t.map charKey = u.map charKey →
        reSearchList true true as t = reSearchList true true as u) := by
  refine ⟨?_, rfl, ?_, ?_⟩
  · intro p r h
    cases hp : parseAtoms p with
    | ok as =>
        have he : reCompileSearch (.str p)
            = .ok { atoms := as, multiline := true, ignorecase := true } := by
          simp [reCompileSearch, hp]
        rw [he] at h
        cases h
        exact ⟨rfl, rfl⟩
    | error e =>
        have he : reCompileSearch (.str p) = .error e := by
          simp [reCompileSearch, hp]
        rw [he] at h
        cases h
  · intro pre post
    unfold reSearchList
    have hm : matchHere true true [RAtom.lineStart, .lit 'f', .lit 'o', .lit 'o', .lineEnd]
        ((pre ++ ['\n']).reverse ++ []) ('f' :: 'o' :: 'o' :: '\n' :: post) = true := by
      simp [List.reverse_append, matchHere, atLineStart, atLineEnd, litMatches]
    have hs := searchFrom_of_matchHere true true _ _ _ hm
    have hfin := searchFrom_shift true true _ (pre ++ ['\n']) []
      ('f' :: 'o' :: 'o' :: '\n' :: post) hs
    simpa [List.append_assoc] using hfin
  · intro as t u h
    exact searchFrom_congr true as t u [] [] rfl h

/-- C8 witness: the compiled `^foo$` has both flags, matches a concrete
three-line body, and matching is unchanged under changing the case of the
body. -/
theorem c8_flags_and_matching_witness :
    ({ atoms := [.lineStart, .lit 'f', .lit 'o', .lit 'o', .lineEnd],
       multiline := true, ignorecase := true } : CompiledRegex).multiline = true
  ∧ reSearchList true true [.lineStart, .lit 'f', .lit 'o', .lit 'o', .lineEnd]
      "first\nfoo\nlast".toList = true
  ∧ reSearchList true true [.lineStart, .lit 'f', .lit 'o', .lit 'o', .lineEnd]
        "A\nFOO\nB".toList
      = reSearchList true true [.lineStart, .lit 'f', .lit 'o', .lit 'o', .lineEnd]
        "a\nfoo\nb".toList :=
  ⟨(c8_flags_and_matching.1 "^foo$"
      { atoms := [.lineStart, .lit 'f', .lit 'o', .lit 'o', .lineEnd],
        multiline := true, ignorecase := true } rfl).1,
   c8_flags_and_matching.2.2.1 "first".toList "last".toList,
   c8_flags_and_matching.2.2.2 [.lineStart, .lit 'f', .lit 'o', .lit 'o', .lineEnd]
     "A\nFOO\nB".toList "a\nfoo\nb".toList (by decide)⟩

/-- C9: a body decoding to a falsy JSON value — and likewise an absent or
unparseable body — yields the Invalid-parameters failure with no outbound
call, not a field-required message. -/
theorem c9_falsy_body_invalid_parameters (b : Option JValue) (up : Upstream)
    (h : ∀ v, b = some v → v.truthy = false) :
    search b up =
      (.ok (.obj [("status", .str "failed"), ("message", .str "Invalid parameters")]), []) := by
  cases b with
  | none => rfl
  | some v =>
      have hv : v.truthy = false := h v rfl
      simp [search, hv]

/-- C9 witness: the body `\x7b\x7d` (the empty object) yields
Invalid parameters, not the username-required message. -/
theorem c9_falsy_body_witness :
    search (some (.obj [])) upNoGists
      = (.ok (.obj [("status", .str "failed"),
                    ("message", .str "Invalid parameters")]), []) :=
  c9_falsy_body_invalid_parameters (some (.obj [])) upNoGists
    (fun v hv => by cases hv; rfl)

/-- C10 counterexample: the claim quantifies over every parseable, truthy
body, but for the truthy body `5` the membership test on line 72 raises
`TypeError`, so the handler faults instead of returning the
username-required result. -/
theorem c10_counterexample_numeric_body :
    (JValue.num 5).truthy = true
  ∧ (search (some (.num 5)) upNoGists).1
      = .error "TypeError: argument of type int is not iterable" :=
  ⟨rfl, rfl⟩

/-- C10 (amended to bodies supporting the membership test — objects, arrays
and strings): when both fields are missing the username check fires first,
and the field-required responses carry exactly the keys `status` and
`message` — no username, pattern or matches keys. -/
theorem c10_username_checked_first_minimal_keys (pd : JValue) (up : Upstream)
    (hT : pd.truthy = true) :
    (pyContains "username" pd = .ok false → pyContains "pattern" pd = .ok false →
        search (some pd) up =
          (.ok (.obj [("status", .str "failed"),
                      ("message", .str "username is required")]), []))
  ∧ (pyContains "username" pd = .ok true → pyContains "pattern" pd = .ok false →
        search (some pd) up =
          (.ok (.obj [("status", .str "failed"),
                      ("message", .str "pattern is required")]), [])) :=
  ⟨fun h1 _ => search_missing_username pd up hT h1,
   fun h1 h2 => search_missing_pattern pd up hT h1 h2⟩

/-- C10 witness: an array body missing both fields gets the
username-required message with only the status and message keys. -/
theorem c10_username_checked_first_witness :
    search (some (.arr [.str "z"])) upNoGists
      = (.ok (.obj [("status", .str "failed"),
                    ("message", .str "username is required")]), []) :=
  (c10_username_checked_first_minimal_keys (.arr [.str "z"]) upNoGists rfl).1 rfl rfl
